import Mathlib

/-!
Verification of the captcha verification engine of BetterForward
(`src/utils/captcha.py`, class `CaptchaManager`).

The Python code is shallowly embedded as executable Lean functions.
Timestamps (`time.time()`) are modelled as rationals; the per-user keys of
the volatile `diskcache.Cache` store are modelled as a record of optional
entries, each carrying its value together with its absolute expiry time
(`diskcache` stores `expire = now + ttl` on `set` and treats an entry as
live on `get` exactly when `now < expire`).  The sqlite database is
modelled as a record holding the `captcha_history` and `verified_users`
tables together with a flag saying whether `INSERT INTO captcha_history`
succeeds or raises `sqlite3.OperationalError`.  Each embedded operation
takes the current time `now` explicitly; the several `time.time()` calls
inside one Python call are identified, which is the usual shallow embedding
of a single logical instant.
-/

namespace BetterForward

/-- Timestamps and durations, in seconds (`time.time()` values). -/
abbrev Time := ℚ

/-- One entry of the volatile store: a value plus its absolute expiry time. -/
structure Entry (α : Type) where
  val : α
  expireAt : Time
deriving DecidableEq

/-- Read of a cache entry at time `now`: `diskcache` returns the stored value
exactly when the entry exists and `now < expire`. -/
def getE {α : Type} (e : Option (Entry α)) (now : Time) : Option α :=
  match e with
  | none => none
  | some en => if now < en.expireAt then some en.val else none

/-- Configuration constants of `CaptchaManager` (the `DEFAULT_*` class
constants, copied into instance fields in `__init__` and exposed as
tunables). -/
structure Config where
  max_attempts : Nat
  captcha_timeout : Time
  lockout_duration : Time
  lockout_after_attempts : Nat
  min_answer_time : Time
  max_answer_time : Time
deriving DecidableEq

/-- The default configuration (`DEFAULT_MAX_ATTEMPTS = 3` and friends). -/
def defaultConfig : Config :=
  { max_attempts := 3
    captcha_timeout := 120
    lockout_duration := 600
    lockout_after_attempts := 2
    min_answer_time := 3
    max_answer_time := 60 }

/-- Payload stored under `captcha_{user_id}`: a math captcha stores an `int`
answer and no `"type"` key (read back as `"math"`), an image captcha stores
the code string and `"type": "image"`. -/
inductive CaptchaPayload where
  | math (answer : Int)
  | image (code : List Char)
deriving DecidableEq

/-- The dictionary stored under `captcha_{user_id}` by `generate_captcha`
(`first_attempt_time` is written but never read and is omitted). -/
structure CaptchaData where
  payload : CaptchaPayload
  created_at : Time
  attempts : Nat
deriving DecidableEq

/-- The dictionary stored under `button_captcha_{user_id}` (the `timestamp`
field feeds only the token generation and is omitted; the token itself is
kept abstract as a character list). -/
structure ButtonData where
  user_id : Int
  token : List Char
  created_at : Time
deriving DecidableEq

/-- The per-user keys of the volatile store used by `CaptchaManager`:
`captcha_failures_{u}`, `captcha_locked_{u}`, `captcha_{u}`,
`button_captcha_{u}` and `verified_{u}`. -/
structure CacheState where
  failures : Option (Entry Nat)
  locked : Option (Entry Time)
  captcha : Option (Entry CaptchaData)
  buttonData : Option (Entry ButtonData)
  verifiedCache : Option (Entry Bool)
deriving DecidableEq

/-- The empty cache (no keys stored). -/
def emptyCache : CacheState :=
  { failures := none, locked := none, captcha := none, buttonData := none
    verifiedCache := none }

/-- One row of the `captcha_history` table. -/
structure HistoryRec where
  user_id : Int
  success : Bool
  timestamp : Int
deriving DecidableEq

/-- The durable sqlite store: the two tables plus a flag telling whether an
insert into `captcha_history` succeeds or raises
`sqlite3.OperationalError` (e.g. the table is missing). -/
structure Db where
  historyOk : Bool
  history : List HistoryRec
  verified_users : List Int
deriving DecidableEq

/-- The distinct user-facing messages returned by the engine (the translated
format strings of the source, with their numeric parameters). -/
inductive VMsg where
  | lockedTryAgain (seconds : Int)
  | failedTooMany (seconds : Int)
  | captchaExpired
  | tooFast
  | tooSlow
  | tooManyAttempts
  | success
  | incorrectRemaining (remaining : Nat)
  | invalidFormat
  | invalidFormatRemaining (remaining : Nat)
  | verificationExpired
  | invalidToken
deriving DecidableEq

/-- Result of `verify_captcha` / `verify_button_captcha`: the returned pair
plus the post-states of the volatile and durable stores (`db = none` models
the Python default `db=None`). -/
structure VerifyResult where
  passed : Bool
  msg : VMsg
  cache : CacheState
  db : Option Db
deriving DecidableEq

/-- Python `_get_failure_count`: `cache.get(f"captcha_failures_{u}", 0)`. -/
def get_failure_count (c : CacheState) (now : Time) : Nat :=
  (getE c.failures now).getD 0

/-- Python `_increment_failure_count`: bump the rolling counter with a fresh
3600 s TTL and, when the new count reaches `lockout_after_attempts`, store
`locked_until = now + lockout_duration` with TTL `lockout_duration`. -/
def increment_failure_count (cfg : Config) (c : CacheState) (now : Time) :
    CacheState :=
  let count := get_failure_count c now + 1
  let c1 := { c with failures := some ⟨count, now + 3600⟩ }
  if cfg.lockout_after_attempts ≤ count then
    { c1 with locked := some ⟨now + cfg.lockout_duration,
                             now + cfg.lockout_duration⟩ }
  else c1

/-- Python `_reset_failure_count`: delete both the counter and the lock. -/
def reset_failure_count (c : CacheState) : CacheState :=
  { c with failures := none, locked := none }

/-- Python `_is_user_locked`: read `captcha_locked_{u}`; locked iff the entry
is live and `now < lock_until`; an entry whose value has passed is lazily
deleted.  Returns the flag together with the possibly-updated cache. -/
def is_user_locked (c : CacheState) (now : Time) : Bool × CacheState :=
  match getE c.locked now with
  | none => (false, c)
  | some lockUntil =>
    if now < lockUntil then (true, c)
    else (false, { c with locked := none })

/-- Python `_get_lock_remaining_time`:
`max(0, int(lock_until - time.time()))` (Python `int` truncates toward
zero; under `max 0` this agrees with the floor). -/
def get_lock_remaining_time (c : CacheState) (now : Time) : Int :=
  match getE c.locked now with
  | none => 0
  | some lockUntil => max 0 (Rat.floor (lockUntil - now))

/-- Python `_get_remaining_attempts`: `max(0, max_attempts - failures)`
(natural subtraction). -/
def get_remaining_attempts (cfg : Config) (c : CacheState) (now : Time) :
    Nat :=
  cfg.max_attempts - get_failure_count c now

/-- Python whitespace test used by `str.strip()` (the characters relevant to
this model). -/
def isPySpace (ch : Char) : Bool :=
  ch = ' ' || ch = '\t' || ch = '\n' || ch = '\r'

/-- Python `str.strip()` on the character list of a string. -/
def pyStrip (l : List Char) : List Char :=
  ((l.dropWhile isPySpace).reverse.dropWhile isPySpace).reverse

/-- Digits of a decimal numeral, most significant first. -/
def parseDigits : List Char → Option Nat
  | [] => none
  | l => l.foldl
      (fun acc ch =>
        match acc with
        | none => none
        | some n => if ch.isDigit then some (n * 10 + (ch.toNat - 48)) else none)
      (some 0)

/-- Python `int(s)` on an already-stripped string: an optional sign followed
by at least one decimal digit (exotic accepted forms such as underscore
separators are outside this model). -/
def pyInt : List Char → Option Int
  | [] => none
  | '-' :: rest => (parseDigits rest).map (fun n => -(n : Int))
  | '+' :: rest => (parseDigits rest).map (fun n => (n : Int))
  | l => (parseDigits l).map (fun n => (n : Int))

/-- Python `_log_verification`: try to `INSERT INTO captcha_history`; both
`sqlite3.OperationalError` and any other exception are caught, so a failed
write leaves the database unchanged and the call always returns normally. -/
def log_verification (user_id : Int) (now : Time) (success : Bool)
    (db : Db) : Db :=
  if db.historyOk then
    { db with history := db.history ++ [⟨user_id, success, Rat.floor now⟩] }
  else db

/-- The Python pattern `if db: self._log_verification(...)`. -/
def log_opt (user_id : Int) (now : Time) (success : Bool)
    (db : Option Db) : Option Db :=
  db.map (log_verification user_id now success)

/-- Delete the `captcha_{user_id}` key. -/
def delCaptcha (c : CacheState) : CacheState := { c with captcha := none }

/-- Delete the `button_captcha_{user_id}` key. -/
def delButton (c : CacheState) : CacheState := { c with buttonData := none }

/-- Python `verify_captcha(user_id, answer, db)`, translated branch for
branch.  The submitted answer is a character list (`str(answer)`); the
returned pair `(bool, message)` is extended with the post-states of the two
stores. -/
def verify_captcha (cfg : Config) (now : Time) (user_id : Int)
    (answer : List Char) (c : CacheState) (db : Option Db) : VerifyResult :=
  let p := is_user_locked c now
  let c := p.2
  if p.1 ∧ 0 < get_lock_remaining_time c now then
    ⟨false, .lockedTryAgain (get_lock_remaining_time c now), c, db⟩
  else
    match getE c.captcha now with
    | none => ⟨false, .captchaExpired, c, db⟩
    | some cd =>
      let elapsed := now - cd.created_at
      if cfg.captcha_timeout < elapsed then
        ⟨false, .captchaExpired, delCaptcha c, db⟩
      else if elapsed < cfg.min_answer_time then
        -- answered too quickly: re-store the challenge with a bumped
        -- per-challenge attempt counter and a fresh TTL, count a failure
        let cd' : CaptchaData := { cd with attempts := cd.attempts + 1 }
        let c := { c with captcha := some ⟨cd', now + cfg.captcha_timeout⟩ }
        let c := increment_failure_count cfg c now
        let db := log_opt user_id now false db
        ⟨false, .tooFast, c, db⟩
      else if cfg.max_answer_time < elapsed then
        ⟨false, .tooSlow, delCaptcha c, db⟩
      else if cfg.max_attempts ≤ cd.attempts then
        let c := increment_failure_count cfg c now
        ⟨false, .tooManyAttempts, delCaptcha c, db⟩
      else
        let user_answer := pyStrip answer
        match cd.payload with
        | .image code =>
          if user_answer = code then
            let c := reset_failure_count c
            let c := delCaptcha c
            let db := log_opt user_id now true db
            ⟨true, .success, c, db⟩
          else
            let c := increment_failure_count cfg c now
            let remaining := get_remaining_attempts cfg c now
            if remaining = 0 then
              ⟨false, .tooManyAttempts, delCaptcha c, db⟩
            else
              let c := delCaptcha c
              let db := log_opt user_id now false db
              ⟨false, .incorrectRemaining remaining, c, db⟩
        | .math correct =>
          match pyInt user_answer with
          | some user_answer_int =>
            if user_answer_int = correct then
              let c := reset_failure_count c
              let c := delCaptcha c
              let db := log_opt user_id now true db
              ⟨true, .success, c, db⟩
            else
              let c := increment_failure_count cfg c now
              let remaining := get_remaining_attempts cfg c now
              if remaining = 0 then
                ⟨false, .tooManyAttempts, delCaptcha c, db⟩
              else
                let c := delCaptcha c
                let db := log_opt user_id now false db
                ⟨false, .incorrectRemaining remaining, c, db⟩
          | none =>
            -- ValueError: the submission is not a number
            let c := increment_failure_count cfg c now
            let remaining := get_remaining_attempts cfg c now
            if remaining = 0 then
              ⟨false, .invalidFormat, delCaptcha c, db⟩
            else
              let c := delCaptcha c
              let db := log_opt user_id now false db
              ⟨false, .invalidFormatRemaining remaining, c, db⟩

/-- Python `verify_button_captcha(user_id, token, db)`: no lockout check;
expiry by the explicit `created_at` test; token and identity must match
exactly; a mismatch counts a rolling failure, a match resets the failure
state. -/
def verify_button_captcha (cfg : Config) (now : Time) (user_id : Int)
    (token : List Char) (c : CacheState) (db : Option Db) : VerifyResult :=
  match getE c.buttonData now with
  | none => ⟨false, .verificationExpired, c, db⟩
  | some bd =>
    if cfg.captcha_timeout < now - bd.created_at then
      ⟨false, .verificationExpired, delButton c, db⟩
    else if bd.token ≠ token ∨ bd.user_id ≠ user_id then
      let c := increment_failure_count cfg c now
      let db := log_opt user_id now false db
      ⟨false, .invalidToken, c, db⟩
    else
      let c := reset_failure_count c
      let c := delButton c
      let db := log_opt user_id now true db
      ⟨true, .success, c, db⟩

/-- Python `is_user_verified(user_id, db)`: read-through cache under
`verified_{user_id}` with TTL 1800 s, falling back to a membership query on
`verified_users` and caching the boolean (also a negative one). -/
def is_user_verified (now : Time) (user_id : Int) (c : CacheState)
    (db : Db) : Bool × CacheState :=
  match getE c.verifiedCache now with
  | some v => (v, c)
  | none =>
    let v : Bool := user_id ∈ db.verified_users
    (v, { c with verifiedCache := some ⟨v, now + 1800⟩ })

/-- Python `set_user_verified(user_id, db)`: `INSERT OR REPLACE` into
`verified_users` (the table has only the primary-key column, so the row set
gains `user_id` if absent) and cache `True` with TTL 1800 s. -/
def set_user_verified (now : Time) (user_id : Int) (c : CacheState)
    (db : Db) : CacheState × Db :=
  ({ c with verifiedCache := some ⟨true, now + 1800⟩ },
   { db with verified_users :=
       if user_id ∈ db.verified_users then db.verified_users
       else user_id :: db.verified_users })

/-- Difficulty tiers of `_generate_math_captcha`. -/
inductive Difficulty where
  | easy
  | medium
  | hard
  | extreme
deriving DecidableEq

/-- Numeric rank of a tier, for stating escalation. -/
def Difficulty.rank : Difficulty → Nat
  | .easy => 0
  | .medium => 1
  | .hard => 2
  | .extreme => 3

/-- The difficulty selection at the top of `_generate_math_captcha`:
`if failures >= 2: "extreme" elif failures >= 1: "hard" else: "hard"`
(the `difficulty` parameter of the method is overwritten by this choice). -/
def captcha_difficulty (failures : Nat) : Difficulty :=
  if 2 ≤ failures then .extreme
  else if 1 ≤ failures then .hard
  else .hard

/-- One operation template of `_generate_math_captcha` together with the
values of its random draws.  The constructors follow the `match difficulty`
/ `random.choice` structure of the source; `defaultFallback` is the
`case _` arm. -/
inductive OpTemplate where
  | easyAdd (n1 n2 : Int)
  | easySub (n1 n2 : Int)
  | mediumMultiply (n1 n2 : Int)
  | mediumComplexAdd (a b c : Int)
  | hardMultiplyComplex (n1 n2 : Int)
  | hardDivide (divisor quotient : Int)
  | hardTripleOp (a b c d : Int)
  | hardLargeNumbers (n1 n2 : Int)
  | extremeComplexMultiply (n1 n2 : Int)
  | extremeComplexDivide (divisor quotient : Int)
  | extremeNestedOps (a b c d e : Int)
  | extremeLargeMultiply (n1 n2 : Int)
  | defaultFallback (n1 n2 : Int)
deriving DecidableEq

/-- The displayed arithmetic expression of a generated math question, as an
abstract syntax tree of the format strings of the source
(`"a + b = ?"`, `"(a + b) × c - d = ?"`, `"((a + b) × c - d) ÷ e = ?"`, …). -/
inductive MathQuestion where
  | add (a b : Int)
  | sub (a b : Int)
  | mul (a b : Int)
  | addSub (a b c : Int)
  | div (dividend divisor : Int)
  | tripleOp (a b c d : Int)
  | nestedOps (a b c d e : Int)
deriving DecidableEq

/-- The bounds of the `random.randint` draws of each template in
`_generate_math_captcha`. -/
def InRange : OpTemplate → Prop
  | .easyAdd n1 n2 => 10 ≤ n1 ∧ n1 ≤ 20 ∧ 10 ≤ n2 ∧ n2 ≤ 20
  | .easySub n1 n2 => 20 ≤ n1 ∧ n1 ≤ 40 ∧ 5 ≤ n2 ∧ n2 ≤ n1
  | .mediumMultiply n1 n2 => 3 ≤ n1 ∧ n1 ≤ 12 ∧ 3 ≤ n2 ∧ n2 ≤ 12
  | .mediumComplexAdd a b c =>
      10 ≤ a ∧ a ≤ 25 ∧ 10 ≤ b ∧ b ≤ 25 ∧ 5 ≤ c ∧ c ≤ 15
  | .hardMultiplyComplex n1 n2 => 11 ≤ n1 ∧ n1 ≤ 19 ∧ 3 ≤ n2 ∧ n2 ≤ 9
  | .hardDivide divisor quotient =>
      2 ≤ divisor ∧ divisor ≤ 9 ∧ 5 ≤ quotient ∧ quotient ≤ 15
  | .hardTripleOp a b c d =>
      10 ≤ a ∧ a ≤ 20 ∧ 5 ≤ b ∧ b ≤ 15 ∧ 3 ≤ c ∧ c ≤ 10 ∧ 2 ≤ d ∧ d ≤ 8
  | .hardLargeNumbers n1 n2 => 50 ≤ n1 ∧ n1 ≤ 100 ∧ 20 ≤ n2 ∧ n2 ≤ n1
  | .extremeComplexMultiply n1 n2 => 15 ≤ n1 ∧ n1 ≤ 25 ∧ 4 ≤ n2 ∧ n2 ≤ 12
  | .extremeComplexDivide divisor quotient =>
      3 ≤ divisor ∧ divisor ≤ 12 ∧ 8 ≤ quotient ∧ quotient ≤ 20
  | .extremeNestedOps a b c d e =>
      8 ≤ a ∧ a ≤ 15 ∧ 5 ≤ b ∧ b ≤ 12 ∧ 3 ≤ c ∧ c ≤ 8 ∧ 2 ≤ d ∧ d ≤ 6 ∧
      1 ≤ e ∧ e ≤ 5
  | .extremeLargeMultiply n1 n2 => 20 ≤ n1 ∧ n1 ≤ 30 ∧ 5 ≤ n2 ∧ n2 ≤ 15
  | .defaultFallback n1 n2 => 15 ≤ n1 ∧ n1 ≤ 25 ∧ 4 ≤ n2 ∧ n2 ≤ 12

instance (t : OpTemplate) : Decidable (InRange t) := by
  cases t <;> (unfold InRange; infer_instance)

/-- The tier whose `random.choice` list contains the template. -/
def templateTier : OpTemplate → Difficulty
  | .easyAdd _ _ | .easySub _ _ => .easy
  | .mediumMultiply _ _ | .mediumComplexAdd _ _ _ => .medium
  | .hardMultiplyComplex _ _ | .hardDivide _ _ | .hardTripleOp _ _ _ _
  | .hardLargeNumbers _ _ => .hard
  | _ => .extreme

/-- The question/answer synthesis of `_generate_math_captcha`, template by
template.  `extremeNestedOps` computes its answer with Python floor
division (`((a + b) * c - d) // e`), embedded as `Int.fdiv`; the division
templates construct `dividend = divisor * quotient` and answer with the
quotient. -/
def generate_math : OpTemplate → MathQuestion × Int
  | .easyAdd n1 n2 => (.add n1 n2, n1 + n2)
  | .easySub n1 n2 => (.sub n1 n2, n1 - n2)
  | .mediumMultiply n1 n2 => (.mul n1 n2, n1 * n2)
  | .mediumComplexAdd a b c => (.addSub a b c, a + b - c)
  | .hardMultiplyComplex n1 n2 => (.mul n1 n2, n1 * n2)
  | .hardDivide divisor quotient =>
      (.div (divisor * quotient) divisor, quotient)
  | .hardTripleOp a b c d => (.tripleOp a b c d, (a + b) * c - d)
  | .hardLargeNumbers n1 n2 => (.sub n1 n2, n1 - n2)
  | .extremeComplexMultiply n1 n2 => (.mul n1 n2, n1 * n2)
  | .extremeComplexDivide divisor quotient =>
      (.div (divisor * quotient) divisor, quotient)
  | .extremeNestedOps a b c d e =>
      (.nestedOps a b c d e, Int.fdiv ((a + b) * c - d) e)
  | .extremeLargeMultiply n1 n2 => (.mul n1 n2, n1 * n2)
  | .defaultFallback n1 n2 => (.mul n1 n2, n1 * n2)

/-- Exact (rational) value of the displayed expression, as a human reading
the question computes it: `÷` is exact division. -/
def evalQ : MathQuestion → ℚ
  | .add a b => (a : ℚ) + (b : ℚ)
  | .sub a b => (a : ℚ) - (b : ℚ)
  | .mul a b => (a : ℚ) * (b : ℚ)
  | .addSub a b c => (a : ℚ) + (b : ℚ) - (c : ℚ)
  | .div dividend divisor => (dividend : ℚ) / (divisor : ℚ)
  | .tripleOp a b c d => ((a : ℚ) + (b : ℚ)) * (c : ℚ) - (d : ℚ)
  | .nestedOps a b c d e => (((a : ℚ) + (b : ℚ)) * (c : ℚ) - (d : ℚ)) / (e : ℚ)

/-- The dividend/divisor pair of a division-based question (one whose
displayed expression contains `÷`). -/
def divPair : MathQuestion → Option (Int × Int)
  | .div dividend divisor => some (dividend, divisor)
  | .nestedOps a b c d e => some ((a + b) * c - d, e)
  | _ => none

/-- The `"math"` arm of Python `generate_captcha`: refuse while locked with
positive remaining whole seconds, otherwise draw a question (the template
`t` stands for the random draws of `_generate_math_captcha`) and store
`{answer, created_at: now, attempts: 0}` under `captcha_{user_id}` with
TTL `captcha_timeout`.  Returns the question (or `none` when refused), the
error message (or `none`), and the new cache. -/
def generate_captcha_math (cfg : Config) (now : Time) (t : OpTemplate)
    (c : CacheState) : Option MathQuestion × Option VMsg × CacheState :=
  let p := is_user_locked c now
  let c := p.2
  if p.1 ∧ 0 < get_lock_remaining_time c now then
    (none, some (.failedTooMany (get_lock_remaining_time c now)), c)
  else
    let qa := generate_math t
    let cd : CaptchaData := ⟨.math qa.2, now, 0⟩
    (some qa.1, none,
     { c with captcha := some ⟨cd, now + cfg.captcha_timeout⟩ })

/-- The `"button"` arm of Python `generate_captcha`: refuse while locked as
above, otherwise store `{user_id, token, created_at: now}` under
`button_captcha_{user_id}` with TTL `captcha_timeout` (the token stands for
the random sha256-derived token of the source). -/
def generate_captcha_button (cfg : Config) (now : Time) (user_id : Int)
    (token : List Char) (c : CacheState) : Option VMsg × CacheState :=
  let p := is_user_locked c now
  let c := p.2
  if p.1 ∧ 0 < get_lock_remaining_time c now then
    (some (.failedTooMany (get_lock_remaining_time c now)), c)
  else
    let bd : ButtonData := ⟨user_id, token, now⟩
    (none, { c with buttonData := some ⟨bd, now + cfg.captcha_timeout⟩ })

/-- Modelled from the spec: the message-routing caller of the engine is not
part of the captcha module; per the spec's state machine ("On match → …
mark user verified, transition to `VERIFIED`") it invokes
`set_user_verified` exactly when `verify_captcha` returns a pass.  This
composes the two as that caller does. -/
def submit_and_mark (cfg : Config) (now : Time) (user_id : Int)
    (answer : List Char) (c : CacheState) (db : Db) :
    Bool × VMsg × CacheState × Db :=
  let r := verify_captcha cfg now user_id answer c (some db)
  let db1 := r.db.getD db
  if r.passed then
    let p := set_user_verified now user_id r.cache db1
    (r.passed, r.msg, p.1, p.2)
  else
    (r.passed, r.msg, r.cache, db1)

/-- Modelled from the spec: the same caller composition for the button path
(`submitToken` "success clears state and marks verified, mirroring step 8"). -/
def submit_token_and_mark (cfg : Config) (now : Time) (user_id : Int)
    (token : List Char) (c : CacheState) (db : Db) :
    Bool × VMsg × CacheState × Db :=
  let r := verify_button_captcha cfg now user_id token c (some db)
  let db1 := r.db.getD db
  if r.passed then
    let p := set_user_verified now user_id r.cache db1
    (r.passed, r.msg, p.1, p.2)
  else
    (r.passed, r.msg, r.cache, db1)

/-- Whether a template is the `nested_ops` template of the `extreme` tier. -/
def isNestedOpsTemplate : OpTemplate → Bool
  | .extremeNestedOps _ _ _ _ _ => true
  | _ => false

/-- A fresh durable store with a working `captcha_history` table. -/
def freshDb : Db := ⟨true, [], []⟩

/-- The cache after two failure increments at times 0 and 1 (e.g. two
wrong-token submissions), the second of which reaches the default lockout
threshold of 2 and stores a lock until `1 + 600 = 601`. -/
def c3TwoFailures : CacheState :=
  increment_failure_count defaultConfig
    (increment_failure_count defaultConfig emptyCache 0) 1

/-- The default configuration with the tunable `lockout_duration` set to
5 s (all configuration fields are instance attributes the source documents
as adjustable). -/
def c4Config : Config := { defaultConfig with lockout_duration := 5 }

/-- A math challenge (answer 10 ÷ 2) issued at time 0 to user 42. -/
def c4Issued : CacheState :=
  (generate_captcha_math c4Config 0 (.hardDivide 2 5) emptyCache).2.2

/-- A first submission of the correct answer at time 1: too fast, counted
as the first rolling failure; the challenge is re-stored. -/
def c4Fast1 : VerifyResult :=
  verify_captcha c4Config 1 42 ['5'] c4Issued (some freshDb)

/-- A second too-fast submission at time 2: second rolling failure, which
reaches the lockout threshold and locks the user until `2 + 5 = 7`. -/
def c4Fast2 : VerifyResult :=
  verify_captcha c4Config 2 42 ['5'] c4Fast1.cache c4Fast1.db

/-- A math challenge (answer 10 ÷ 2) issued at time 0 to user 42, default
configuration. -/
def c6Issued : CacheState :=
  (generate_captcha_math defaultConfig 0 (.hardDivide 2 5) emptyCache).2.2

/-- Too-fast submission at time 1: first rolling failure (logged). -/
def c6Fast1 : VerifyResult :=
  verify_captcha defaultConfig 1 42 ['5'] c6Issued (some freshDb)

/-- Too-fast submission at time 2: second rolling failure (logged), which
locks the user until `2 + 600 = 602`. -/
def c6Fast2 : VerifyResult :=
  verify_captcha defaultConfig 2 42 ['5'] c6Fast1.cache c6Fast1.db

/-- At time 602 the lock has just expired, so a fresh challenge
(answer 24 ÷ 3) is issued; the rolling failure counter (TTL 3602) still
holds 2. -/
def c6Reissued : CacheState :=
  (generate_captcha_math defaultConfig 602 (.extremeComplexDivide 3 8)
    c6Fast2.cache).2.2

/-- A wrong (but well-formed and timely) answer at time 606: the rolling
counter rises to 3, exhausting the attempt budget. -/
def c6Final : VerifyResult :=
  verify_captcha defaultConfig 606 42 ['7'] c6Reissued c6Fast2.db

section Lemmas

variable {cfg : Config} {now : Time} {c : CacheState}

lemma getE_some_of_lt {α : Type} {v : α} {exp : Time} (h : now < exp) :
    getE (some ⟨v, exp⟩) now = some v := by
  simp [getE, h]

lemma is_user_locked_of_no_live (h : getE c.locked now = none) :
    is_user_locked c now = (false, c) := by
  unfold is_user_locked
  rw [h]

lemma get_failure_count_increment :
    get_failure_count (increment_failure_count cfg c now) now =
      get_failure_count c now + 1 := by
  have h : now < now + 3600 := by linarith
  simp only [increment_failure_count, get_failure_count]
  split <;> simp [getE, h]

lemma increment_captcha_eq :
    (increment_failure_count cfg c now).captcha = c.captcha := by
  simp only [increment_failure_count]
  split <;> rfl

lemma increment_button_eq :
    (increment_failure_count cfg c now).buttonData = c.buttonData := by
  simp only [increment_failure_count]
  split <;> rfl

lemma increment_failures_eq :
    (increment_failure_count cfg c now).failures =
      some ⟨get_failure_count c now + 1, now + 3600⟩ := by
  simp only [increment_failure_count]
  split <;> rfl

lemma increment_locked_of_reach
    (h : cfg.lockout_after_attempts ≤ get_failure_count c now + 1) :
    (increment_failure_count cfg c now).locked =
      some ⟨now + cfg.lockout_duration, now + cfg.lockout_duration⟩ := by
  simp only [increment_failure_count]
  rw [if_pos h]

lemma increment_locked_of_below
    (h : ¬ cfg.lockout_after_attempts ≤ get_failure_count c now + 1) :
    (increment_failure_count cfg c now).locked = c.locked := by
  simp only [increment_failure_count]
  rw [if_neg h]

lemma get_remaining_attempts_increment :
    get_remaining_attempts cfg (increment_failure_count cfg c now) now =
      cfg.max_attempts - (get_failure_count c now + 1) := by
  unfold get_remaining_attempts
  rw [get_failure_count_increment]

end Lemmas

section PathLemmas

variable {cfg : Config} {now : Time} {uid : Int} {ans : List Char}
variable {c : CacheState} {db : Option Db} {cd : CaptchaData} {exp : Time}

/-- Reduction of `verify_captcha` on the too-fast branch. -/
lemma verify_captcha_too_fast
    (hl : getE c.locked now = none)
    (hcap : c.captcha = some ⟨cd, exp⟩) (hlive : now < exp)
    (hnt : ¬ cfg.captcha_timeout < now - cd.created_at)
    (hfast : now - cd.created_at < cfg.min_answer_time) :
    verify_captcha cfg now uid ans c db =
      ⟨false, .tooFast,
       increment_failure_count cfg
         { c with captcha := some ⟨{ cd with attempts := cd.attempts + 1 },
                                   now + cfg.captcha_timeout⟩ } now,
       log_opt uid now false db⟩ := by
  unfold verify_captcha
  rw [is_user_locked_of_no_live hl]
  simp only [hcap, getE_some_of_lt hlive, if_neg hnt, if_pos hfast]
  simp

/-- Reduction of `verify_captcha` on the too-slow branch. -/
lemma verify_captcha_too_slow
    (hl : getE c.locked now = none)
    (hcap : c.captcha = some ⟨cd, exp⟩) (hlive : now < exp)
    (hnt : ¬ cfg.captcha_timeout < now - cd.created_at)
    (hnf : ¬ now - cd.created_at < cfg.min_answer_time)
    (hslow : cfg.max_answer_time < now - cd.created_at) :
    verify_captcha cfg now uid ans c db =
      ⟨false, .tooSlow, delCaptcha c, db⟩ := by
  unfold verify_captcha
  rw [is_user_locked_of_no_live hl]
  simp only [hcap, getE_some_of_lt hlive, if_neg hnt, if_neg hnf, if_pos hslow]
  simp

/-- Reduction of `verify_captcha` on the success branch, for a math as well
as for an image challenge. -/
lemma verify_captcha_success
    (hl : getE c.locked now = none)
    (hcap : c.captcha = some ⟨cd, exp⟩) (hlive : now < exp)
    (hnt : ¬ cfg.captcha_timeout < now - cd.created_at)
    (hnf : ¬ now - cd.created_at < cfg.min_answer_time)
    (hns : ¬ cfg.max_answer_time < now - cd.created_at)
    (hna : ¬ cfg.max_attempts ≤ cd.attempts)
    (hmatch : (∃ a, cd.payload = .math a ∧ pyInt (pyStrip ans) = some a) ∨
              (∃ code, cd.payload = .image code ∧ pyStrip ans = code)) :
    verify_captcha cfg now uid ans c db =
      ⟨true, .success,
       { c with failures := none, locked := none, captcha := none },
       log_opt uid now true db⟩ := by
  unfold verify_captcha
  rw [is_user_locked_of_no_live hl]
  simp only [hcap, getE_some_of_lt hlive, if_neg hnt, if_neg hnf, if_neg hns,
    if_neg hna]
  rcases hmatch with ⟨a, hpay, hparse⟩ | ⟨code, hpay, heq⟩
  · simp [hpay, hparse, reset_failure_count, delCaptcha]
  · simp [hpay, heq, reset_failure_count, delCaptcha]

/-- Reduction of `verify_captcha` on the wrong-answer branch (a parseable
math answer different from the stored one, or an image code mismatch). -/
lemma verify_captcha_mismatch
    (hl : getE c.locked now = none)
    (hcap : c.captcha = some ⟨cd, exp⟩) (hlive : now < exp)
    (hnt : ¬ cfg.captcha_timeout < now - cd.created_at)
    (hnf : ¬ now - cd.created_at < cfg.min_answer_time)
    (hns : ¬ cfg.max_answer_time < now - cd.created_at)
    (hna : ¬ cfg.max_attempts ≤ cd.attempts)
    (hwrong : (∃ a ua, cd.payload = .math a ∧ pyInt (pyStrip ans) = some ua ∧
                 ua ≠ a) ∨
              (∃ code, cd.payload = .image code ∧ pyStrip ans ≠ code)) :
    verify_captcha cfg now uid ans c db =
      (if cfg.max_attempts - (get_failure_count c now + 1) = 0 then
        ⟨false, .tooManyAttempts,
         delCaptcha (increment_failure_count cfg c now), db⟩
      else
        ⟨false,
         .incorrectRemaining (cfg.max_attempts - (get_failure_count c now + 1)),
         delCaptcha (increment_failure_count cfg c now),
         log_opt uid now false db⟩) := by
  unfold verify_captcha
  rw [is_user_locked_of_no_live hl]
  simp only [hcap, getE_some_of_lt hlive, if_neg hnt, if_neg hnf, if_neg hns,
    if_neg hna]
  rcases hwrong with ⟨a, ua, hpay, hparse, hne⟩ | ⟨code, hpay, hne⟩
  · simp only [hpay, hparse, if_neg hne, delCaptcha,
      get_remaining_attempts_increment]
    split <;> simp_all [get_remaining_attempts_increment]
  · simp only [hpay, if_neg hne, delCaptcha, get_remaining_attempts_increment]
    split <;> simp_all [get_remaining_attempts_increment]

/-- Reduction of `verify_captcha` on the locked branch: at least one whole
second of lock remaining. -/
lemma verify_captcha_locked
    {lu : Time}
    (hlock : c.locked = some ⟨lu, exp⟩) (hlive : now < exp) (hlt : now < lu)
    (hsec : 1 ≤ lu - now) :
    verify_captcha cfg now uid ans c db =
      ⟨false, .lockedTryAgain (max 0 (Rat.floor (lu - now))), c, db⟩ := by
  have h1 : is_user_locked c now = (true, c) := by
    unfold is_user_locked
    simp [hlock, getE_some_of_lt hlive, hlt]
  have h2 : get_lock_remaining_time c now = max 0 (Rat.floor (lu - now)) := by
    unfold get_lock_remaining_time
    simp [hlock, getE_some_of_lt hlive]
  have h3 : (0 : Int) < max 0 (Rat.floor (lu - now)) := by
    have : (1 : Int) ≤ Rat.floor (lu - now) := by
      rw [Rat.le_floor]
      exact_mod_cast hsec
    omega
  unfold verify_captcha
  rw [h1]
  simp only [h2]
  simp [h3]

/-- Reduction of `verify_button_captcha` on the success branch: live stored
token, within the timeout, exact token and identity match; the lock state is
never consulted. -/
lemma verify_button_captcha_success
    {bd : ButtonData}
    (hbd : c.buttonData = some ⟨bd, exp⟩) (hlive : now < exp)
    (hnt : ¬ cfg.captcha_timeout < now - bd.created_at)
    (htok : bd.token = ans) (hid : bd.user_id = uid) :
    verify_button_captcha cfg now uid ans c db =
      ⟨true, .success,
       { c with failures := none, locked := none, buttonData := none },
       log_opt uid now true db⟩ := by
  unfold verify_button_captcha
  simp only [hbd, getE_some_of_lt hlive, if_neg hnt]
  simp [htok, hid, reset_failure_count, delButton]

end PathLemmas

/-- Claim C5, counterexample: the difficulty tier does NOT escalate after
one prior failure — zero prior failures and one prior failure both yield
the `hard` tier, so the strict escalation "after 1 prior failure" claimed
by the spec fails at failure count 1. -/
theorem c5_difficulty_counterexample :
    captcha_difficulty 0 = Difficulty.hard ∧
    captcha_difficulty 1 = Difficulty.hard ∧
    ¬ (captcha_difficulty 0).rank < (captcha_difficulty 1).rank := by
  decide

/-- Claim C5, amended: the tier is a deterministic function of the rolling
failure count that yields `hard` for 0 and for 1 prior failures and
escalates exactly once, to `extreme`, for every count of 2 or more
(saturating there). -/
theorem c5_difficulty_amended :
    captcha_difficulty 0 = Difficulty.hard ∧
    captcha_difficulty 1 = Difficulty.hard ∧
    (captcha_difficulty 1).rank < (captcha_difficulty 2).rank ∧
    (∀ n : Nat, 2 ≤ n → captcha_difficulty n = Difficulty.extreme) := by
  refine ⟨rfl, rfl, by decide, ?_⟩
  intro n hn
  unfold captcha_difficulty
  rw [if_pos hn]

/-- Witness for `c5_difficulty_amended` at failure count 7. -/
theorem c5_difficulty_amended_witness :
    2 ≤ 7 ∧ captcha_difficulty 7 = Difficulty.extreme :=
  ⟨by decide, c5_difficulty_amended.2.2.2 7 (by decide)⟩

/-- Claim C2, counterexample: the `nested_ops` template of the `extreme`
tier with the in-range draws `a=8, b=5, c=3, d=2, e=5` displays
`((8 + 5) × 3 - 2) ÷ 5 = ?` and stores the floor-division answer `7`, yet
the displayed expression evaluates to `37/5 ≠ 7` and the dividend is not
divisible by the divisor (`37 % 5 = 2`). -/
theorem c2_math_eval_counterexample :
    InRange (OpTemplate.extremeNestedOps 8 5 3 2 5) ∧
    generate_math (OpTemplate.extremeNestedOps 8 5 3 2 5) =
      (MathQuestion.nestedOps 8 5 3 2 5, 7) ∧
    divPair (MathQuestion.nestedOps 8 5 3 2 5) = some (37, 5) ∧
    (37 : Int) % 5 ≠ 0 ∧
    evalQ (MathQuestion.nestedOps 8 5 3 2 5) ≠ (7 : ℚ) := by
  with_unfolding_all decide

/-- Claim C2, amended: for every template other than `nested_ops`, the
stored answer substituted into the displayed expression evaluates exactly,
and every such division question has `divisor ∣ dividend` by construction;
for `nested_ops` the stored answer is only the floor of the displayed
expression's exact value. -/
theorem c2_math_eval_amended :
    ∀ t : OpTemplate, InRange t →
      (isNestedOpsTemplate t = false →
        evalQ (generate_math t).1 = ((generate_math t).2 : ℚ) ∧
        (∀ dv ds : Int, divPair (generate_math t).1 = some (dv, ds) →
          ds ∣ dv)) ∧
      (isNestedOpsTemplate t = true →
        ((generate_math t).2 : ℚ) ≤ evalQ (generate_math t).1 ∧
        evalQ (generate_math t).1 < ((generate_math t).2 : ℚ) + 1) := by
  intro t ht
  cases t with
  | hardDivide v q =>
    obtain ⟨h2, -, -, -⟩ := ht
    refine ⟨fun _ => ⟨?_, ?_⟩, by simp [isNestedOpsTemplate]⟩
    · have hv : ((v : ℚ)) ≠ 0 := by
        have : (0 : ℚ) < (v : ℚ) := by exact_mod_cast (by omega : (0 : Int) < v)
        exact ne_of_gt this
      simp [generate_math, evalQ, mul_div_cancel_left₀ _ hv]
    · intro dv ds h
      simp only [generate_math, divPair] at h
      obtain ⟨h1, h2⟩ := Prod.mk.injEq .. ▸ (Option.some.injEq _ _ ▸ h)
      subst h1; subst h2
      exact dvd_mul_right v q
  | extremeComplexDivide v q =>
    obtain ⟨h2, -, -, -⟩ := ht
    refine ⟨fun _ => ⟨?_, ?_⟩, by simp [isNestedOpsTemplate]⟩
    · have hv : ((v : ℚ)) ≠ 0 := by
        have : (0 : ℚ) < (v : ℚ) := by exact_mod_cast (by omega : (0 : Int) < v)
        exact ne_of_gt this
      simp [generate_math, evalQ, mul_div_cancel_left₀ _ hv]
    · intro dv ds h
      simp only [generate_math, divPair] at h
      obtain ⟨h1, h2⟩ := Prod.mk.injEq .. ▸ (Option.some.injEq _ _ ▸ h)
      subst h1; subst h2
      exact dvd_mul_right v q
  | extremeNestedOps a b c d e =>
    obtain ⟨ha, -, hb, -, hc, -, hd1, -, he, -⟩ := ht
    refine ⟨by simp [isNestedOpsTemplate], fun _ => ?_⟩
    have he0 : (0 : Int) < e := by omega
    have heQ : (0 : ℚ) < (e : ℚ) := by exact_mod_cast he0
    have hcast : ((a : ℚ) + (b : ℚ)) * (c : ℚ) - (d : ℚ) =
        (((a + b) * c - d : Int) : ℚ) := by push_cast; ring
    have hk : Int.fdiv ((a + b) * c - d) e = ((a + b) * c - d) / e :=
      Int.fdiv_eq_ediv _ (le_of_lt he0)
    constructor
    · simp only [generate_math, evalQ, hcast, hk]
      rw [le_div_iff₀ heQ]
      exact_mod_cast Int.ediv_mul_le ((a + b) * c - d) (ne_of_gt he0)
    · simp only [generate_math, evalQ, hcast, hk]
      rw [div_lt_iff₀ heQ]
      exact_mod_cast Int.lt_ediv_add_one_mul_self ((a + b) * c - d) he0
  | easyAdd n1 n2 =>
    exact ⟨fun _ => ⟨by simp [generate_math, evalQ],
      by intro dv ds h; simp [generate_math, divPair] at h⟩,
      by simp [isNestedOpsTemplate]⟩
  | easySub n1 n2 =>
    exact ⟨fun _ => ⟨by simp [generate_math, evalQ],
      by intro dv ds h; simp [generate_math, divPair] at h⟩,
      by simp [isNestedOpsTemplate]⟩
  | mediumMultiply n1 n2 =>
    exact ⟨fun _ => ⟨by simp [generate_math, evalQ],
      by intro dv ds h; simp [generate_math, divPair] at h⟩,
      by simp [isNestedOpsTemplate]⟩
  | mediumComplexAdd a b c =>
    exact ⟨fun _ => ⟨by simp [generate_math, evalQ],
      by intro dv ds h; simp [generate_math, divPair] at h⟩,
      by simp [isNestedOpsTemplate]⟩
  | hardMultiplyComplex n1 n2 =>
    exact ⟨fun _ => ⟨by simp [generate_math, evalQ],
      by intro dv ds h; simp [generate_math, divPair] at h⟩,
      by simp [isNestedOpsTemplate]⟩
  | hardTripleOp a b c d =>
    exact ⟨fun _ => ⟨by simp [generate_math, evalQ],
      by intro dv ds h; simp [generate_math, divPair] at h⟩,
      by simp [isNestedOpsTemplate]⟩
  | hardLargeNumbers n1 n2 =>
    exact ⟨fun _ => ⟨by simp [generate_math, evalQ],
      by intro dv ds h; simp [generate_math, divPair] at h⟩,
      by simp [isNestedOpsTemplate]⟩
  | extremeComplexMultiply n1 n2 =>
    exact ⟨fun _ => ⟨by simp [generate_math, evalQ],
      by intro dv ds h; simp [generate_math, divPair] at h⟩,
      by simp [isNestedOpsTemplate]⟩
  | extremeLargeMultiply n1 n2 =>
    exact ⟨fun _ => ⟨by simp [generate_math, evalQ],
      by intro dv ds h; simp [generate_math, divPair] at h⟩,
      by simp [isNestedOpsTemplate]⟩
  | defaultFallback n1 n2 =>
    exact ⟨fun _ => ⟨by simp [generate_math, evalQ],
      by intro dv ds h; simp [generate_math, divPair] at h⟩,
      by simp [isNestedOpsTemplate]⟩

/-- Witness for `c2_math_eval_amended` at the in-range `hard`-tier division
draws `divisor=2, quotient=5`. -/
theorem c2_math_eval_amended_witness :
    InRange (OpTemplate.hardDivide 2 5) ∧
    evalQ (generate_math (OpTemplate.hardDivide 2 5)).1 =
      ((generate_math (OpTemplate.hardDivide 2 5)).2 : ℚ) :=
  ⟨by decide,
   ((c2_math_eval_amended (OpTemplate.hardDivide 2 5) (by decide)).1 rfl).1⟩

/-- Claim C7: a submission faster than `min_answer_time` (on a live, not
yet timed-out challenge, with no live lock) is rejected as too fast,
increments the per-challenge attempt counter and the rolling failure
counter exactly once each, and the challenge remains stored (with its
attempt counter bumped and a renewed TTL). -/
theorem c7_too_fast_rejection (cfg : Config) (now : Time) (uid : Int)
    (ans : List Char) (c : CacheState) (db : Db) (cd : CaptchaData)
    (exp : Time)
    (hl : getE c.locked now = none)
    (hcap : c.captcha = some ⟨cd, exp⟩) (hlive : now < exp)
    (hnt : ¬ cfg.captcha_timeout < now - cd.created_at)
    (hfast : now - cd.created_at < cfg.min_answer_time) :
    (verify_captcha cfg now uid ans c (some db)).passed = false ∧
    (verify_captcha cfg now uid ans c (some db)).msg = VMsg.tooFast ∧
    (verify_captcha cfg now uid ans c (some db)).cache.captcha =
      some ⟨{ cd with attempts := cd.attempts + 1 },
            now + cfg.captcha_timeout⟩ ∧
    get_failure_count (verify_captcha cfg now uid ans c (some db)).cache now =
      get_failure_count c now + 1 := by
  rw [verify_captcha_too_fast hl hcap hlive hnt hfast]
  refine ⟨rfl, rfl, ?_, ?_⟩
  · rw [increment_captcha_eq]
  · rw [get_failure_count_increment]
    rfl

/-- Witness for `c7_too_fast_rejection`: answer after 1 s against a
challenge issued at time 0 with the default 3 s floor. -/
theorem c7_too_fast_rejection_witness :
    (verify_captcha defaultConfig 1 7 ['9']
        { emptyCache with captcha := some ⟨⟨.math 10, 0, 0⟩, 120⟩ }
        (some freshDb)).passed = false ∧
    (verify_captcha defaultConfig 1 7 ['9']
        { emptyCache with captcha := some ⟨⟨.math 10, 0, 0⟩, 120⟩ }
        (some freshDb)).msg = VMsg.tooFast ∧
    (verify_captcha defaultConfig 1 7 ['9']
        { emptyCache with captcha := some ⟨⟨.math 10, 0, 0⟩, 120⟩ }
        (some freshDb)).cache.captcha =
      some ⟨{ payload := .math 10, created_at := 0, attempts := 0 + 1 },
            1 + defaultConfig.captcha_timeout⟩ ∧
    get_failure_count
        (verify_captcha defaultConfig 1 7 ['9']
          { emptyCache with captcha := some ⟨⟨.math 10, 0, 0⟩, 120⟩ }
          (some freshDb)).cache 1 =
      get_failure_count
        { emptyCache with captcha := some ⟨⟨.math 10, 0, 0⟩, 120⟩ } 1 + 1 :=
  c7_too_fast_rejection defaultConfig 1 7 ['9']
    { emptyCache with captcha := some ⟨⟨.math 10, 0, 0⟩, 120⟩ }
    freshDb ⟨.math 10, 0, 0⟩ 120 rfl rfl
    (by with_unfolding_all decide) (by with_unfolding_all decide)
    (by with_unfolding_all decide)

/-- Claim C8: a submission slower than `max_answer_time` but within
`captcha_timeout` (on a live challenge, no live lock, past the
anti-automation floor) deletes the challenge, is rejected as too slow, and
leaves the rolling failure counter entry and the durable store untouched. -/
theorem c8_too_slow_silent_expiry (cfg : Config) (now : Time) (uid : Int)
    (ans : List Char) (c : CacheState) (db : Db) (cd : CaptchaData)
    (exp : Time)
    (hl : getE c.locked now = none)
    (hcap : c.captcha = some ⟨cd, exp⟩) (hlive : now < exp)
    (hnt : ¬ cfg.captcha_timeout < now - cd.created_at)
    (hnf : ¬ now - cd.created_at < cfg.min_answer_time)
    (hslow : cfg.max_answer_time < now - cd.created_at) :
    (verify_captcha cfg now uid ans c (some db)).passed = false ∧
    (verify_captcha cfg now uid ans c (some db)).msg = VMsg.tooSlow ∧
    (verify_captcha cfg now uid ans c (some db)).cache.captcha = none ∧
    (verify_captcha cfg now uid ans c (some db)).cache.failures =
      c.failures ∧
    (verify_captcha cfg now uid ans c (some db)).db = some db := by
  rw [verify_captcha_too_slow hl hcap hlive hnt hnf hslow]
  exact ⟨rfl, rfl, rfl, rfl, rfl⟩

/-- Witness for `c8_too_slow_silent_expiry`: answer after 61 s with the
default 60 s ceiling and 120 s timeout. -/
theorem c8_too_slow_silent_expiry_witness :
    (verify_captcha defaultConfig 61 7 ['9']
        { emptyCache with captcha := some ⟨⟨.math 10, 0, 0⟩, 120⟩ }
        (some freshDb)).passed = false ∧
    (verify_captcha defaultConfig 61 7 ['9']
        { emptyCache with captcha := some ⟨⟨.math 10, 0, 0⟩, 120⟩ }
        (some freshDb)).msg = VMsg.tooSlow ∧
    (verify_captcha defaultConfig 61 7 ['9']
        { emptyCache with captcha := some ⟨⟨.math 10, 0, 0⟩, 120⟩ }
        (some freshDb)).cache.captcha = none ∧
    (verify_captcha defaultConfig 61 7 ['9']
        { emptyCache with captcha := some ⟨⟨.math 10, 0, 0⟩, 120⟩ }
        (some freshDb)).cache.failures =
      ({ emptyCache with
          captcha := some ⟨⟨.math 10, 0, 0⟩, 120⟩ } : CacheState).failures ∧
    (verify_captcha defaultConfig 61 7 ['9']
        { emptyCache with captcha := some ⟨⟨.math 10, 0, 0⟩, 120⟩ }
        (some freshDb)).db = some freshDb :=
  c8_too_slow_silent_expiry defaultConfig 61 7 ['9']
    { emptyCache with captcha := some ⟨⟨.math 10, 0, 0⟩, 120⟩ }
    freshDb ⟨.math 10, 0, 0⟩ 120 rfl rfl
    (by with_unfolding_all decide) (by with_unfolding_all decide)
    (by with_unfolding_all decide) (by with_unfolding_all decide)

/-- Claim C9: a too-fast attempt re-stores the challenge with a renewed
store TTL but the original `created_at`, and afterwards every submission
made more than `captcha_timeout` after the original issuance (with no live
lock) is rejected as expired — whether the renewed cache entry has already
lapsed or is still live and caught by the explicit elapsed-time check. -/
theorem c9_expiry_independent_of_ttl (cfg : Config) (now1 : Time)
    (uid : Int) (ans1 : List Char) (c : CacheState) (db : Option Db)
    (cd : CaptchaData) (exp : Time)
    (hl : getE c.locked now1 = none)
    (hcap : c.captcha = some ⟨cd, exp⟩) (hlive : now1 < exp)
    (hnt : ¬ cfg.captcha_timeout < now1 - cd.created_at)
    (hfast : now1 - cd.created_at < cfg.min_answer_time) :
    (verify_captcha cfg now1 uid ans1 c db).cache.captcha =
      some ⟨{ cd with attempts := cd.attempts + 1 },
            now1 + cfg.captcha_timeout⟩ ∧
    ∀ (now2 : Time) (ans2 : List Char) (db2 : Option Db),
      cfg.captcha_timeout < now2 - cd.created_at →
      getE (verify_captcha cfg now1 uid ans1 c db).cache.locked now2 = none →
      (verify_captcha cfg now2 uid ans2
          (verify_captcha cfg now1 uid ans1 c db).cache db2).passed = false ∧
      (verify_captcha cfg now2 uid ans2
          (verify_captcha cfg now1 uid ans1 c db).cache db2).msg =
        VMsg.captchaExpired := by
  rw [verify_captcha_too_fast hl hcap hlive hnt hfast]
  refine ⟨increment_captcha_eq, ?_⟩
  intro now2 ans2 db2 h2 hl2
  unfold verify_captcha
  rw [is_user_locked_of_no_live hl2]
  simp only [increment_captcha_eq]
  by_cases hb : now2 < now1 + cfg.captcha_timeout
  · simp only [getE_some_of_lt hb]
    simp [h2]
  · simp only [getE, if_neg hb]
    simp

/-- Witness for `c9_expiry_independent_of_ttl`: issuance at 0, too-fast
attempt at 2 (renewing the TTL to 122), submission at 121 — past the
120 s timeout relative to issuance yet still within the renewed TTL. -/
theorem c9_expiry_independent_of_ttl_witness :
    (verify_captcha defaultConfig 121 7 ['1', '0']
        (verify_captcha defaultConfig 2 7 ['9']
          { emptyCache with captcha := some ⟨⟨.math 10, 0, 0⟩, 120⟩ }
          (some freshDb)).cache (some freshDb)).passed = false ∧
    (verify_captcha defaultConfig 121 7 ['1', '0']
        (verify_captcha defaultConfig 2 7 ['9']
          { emptyCache with captcha := some ⟨⟨.math 10, 0, 0⟩, 120⟩ }
          (some freshDb)).cache (some freshDb)).msg = VMsg.captchaExpired :=
  (c9_expiry_independent_of_ttl defaultConfig 2 7 ['9']
      { emptyCache with captcha := some ⟨⟨.math 10, 0, 0⟩, 120⟩ }
      (some freshDb) ⟨.math 10, 0, 0⟩ 120 rfl rfl
      (by with_unfolding_all decide) (by with_unfolding_all decide)
      (by with_unfolding_all decide)).2 121 ['1', '0'] (some freshDb)
    (by with_unfolding_all decide) (by with_unfolding_all decide)

/-- Claim C1: a submission matching the stored challenge — a math answer,
an image code, or a button token, each under its path's guards — resets
the failure counter and the lock, deletes the stored challenge, appends a
success history record, marks the user verified, and `is_user_verified`
returns true immediately afterwards.  The marking step is performed by the
message-routing caller, modelled from the spec by `submit_and_mark` /
`submit_token_and_mark`. -/
theorem c1_correct_submission_verifies :
    (∀ (cfg : Config) (now : Time) (uid : Int) (ans : List Char)
        (c : CacheState) (db : Db) (cd : CaptchaData) (exp : Time),
      getE c.locked now = none →
      c.captcha = some ⟨cd, exp⟩ → now < exp →
      ¬ cfg.captcha_timeout < now - cd.created_at →
      ¬ now - cd.created_at < cfg.min_answer_time →
      ¬ cfg.max_answer_time < now - cd.created_at →
      ¬ cfg.max_attempts ≤ cd.attempts →
      ((∃ a, cd.payload = .math a ∧ pyInt (pyStrip ans) = some a) ∨
       (∃ code, cd.payload = .image code ∧ pyStrip ans = code)) →
      db.historyOk = true →
      submit_and_mark cfg now uid ans c db =
        (true, VMsg.success,
         { c with failures := none, locked := none, captcha := none,
                  verifiedCache := some ⟨true, now + 1800⟩ },
         { db with
             history := db.history ++ [⟨uid, true, Rat.floor now⟩],
             verified_users :=
               if uid ∈ db.verified_users then db.verified_users
               else uid :: db.verified_users }) ∧
      (is_user_verified now uid (submit_and_mark cfg now uid ans c db).2.2.1
        (submit_and_mark cfg now uid ans c db).2.2.2).1 = true) ∧
    (∀ (cfg : Config) (now : Time) (uid : Int) (token : List Char)
        (c : CacheState) (db : Db) (bd : ButtonData) (exp : Time),
      c.buttonData = some ⟨bd, exp⟩ → now < exp →
      ¬ cfg.captcha_timeout < now - bd.created_at →
      bd.token = token → bd.user_id = uid →
      db.historyOk = true →
      submit_token_and_mark cfg now uid token c db =
        (true, VMsg.success,
         { c with failures := none, locked := none, buttonData := none,
                  verifiedCache := some ⟨true, now + 1800⟩ },
         { db with
             history := db.history ++ [⟨uid, true, Rat.floor now⟩],
             verified_users :=
               if uid ∈ db.verified_users then db.verified_users
               else uid :: db.verified_users }) ∧
      (is_user_verified now uid
        (submit_token_and_mark cfg now uid token c db).2.2.1
        (submit_token_and_mark cfg now uid token c db).2.2.2).1 = true) := by
  constructor
  · intro cfg now uid ans c db cd exp hl hcap hlive hnt hnf hns hna hm hdb
    have hv := @verify_captcha_success cfg now uid ans c (some db) cd exp
      hl hcap hlive hnt hnf hns hna hm
    have heq : submit_and_mark cfg now uid ans c db =
        (true, VMsg.success,
         { c with failures := none, locked := none, captcha := none,
                  verifiedCache := some ⟨true, now + 1800⟩ },
         { db with
             history := db.history ++ [⟨uid, true, Rat.floor now⟩],
             verified_users :=
               if uid ∈ db.verified_users then db.verified_users
               else uid :: db.verified_users }) := by
      unfold submit_and_mark
      rw [hv]
      simp [set_user_verified, log_opt, log_verification, hdb]
    refine ⟨heq, ?_⟩
    rw [heq]
    have h1800 : now < now + 1800 := by linarith
    simp [is_user_verified, getE, h1800]
  · intro cfg now uid token c db bd exp hbd hlive hnt htok hid hdb
    have hv := @verify_button_captcha_success cfg now uid token c (some db)
      exp bd hbd hlive hnt htok hid
    have heq : submit_token_and_mark cfg now uid token c db =
        (true, VMsg.success,
         { c with failures := none, locked := none, buttonData := none,
                  verifiedCache := some ⟨true, now + 1800⟩ },
         { db with
             history := db.history ++ [⟨uid, true, Rat.floor now⟩],
             verified_users :=
               if uid ∈ db.verified_users then db.verified_users
               else uid :: db.verified_users }) := by
      unfold submit_token_and_mark
      rw [hv]
      simp [set_user_verified, log_opt, log_verification, hdb]
    refine ⟨heq, ?_⟩
    rw [heq]
    have h1800 : now < now + 1800 := by linarith
    simp [is_user_verified, getE, h1800]

/-- Witness for `c1_correct_submission_verifies`: the math path at time 5
on a challenge issued at 0 with answer 10, and the button path at time 5
on a token issued at 0. -/
theorem c1_correct_submission_verifies_witness :
    (is_user_verified 5 7
      (submit_and_mark defaultConfig 5 7 ['1', '0']
        { emptyCache with captcha := some ⟨⟨.math 10, 0, 0⟩, 120⟩ }
        freshDb).2.2.1
      (submit_and_mark defaultConfig 5 7 ['1', '0']
        { emptyCache with captcha := some ⟨⟨.math 10, 0, 0⟩, 120⟩ }
        freshDb).2.2.2).1 = true ∧
    (is_user_verified 5 7
      (submit_token_and_mark defaultConfig 5 7 ['t', 'k']
        { emptyCache with buttonData := some ⟨⟨7, ['t', 'k'], 0⟩, 120⟩ }
        freshDb).2.2.1
      (submit_token_and_mark defaultConfig 5 7 ['t', 'k']
        { emptyCache with buttonData := some ⟨⟨7, ['t', 'k'], 0⟩, 120⟩ }
        freshDb).2.2.2).1 = true :=
  ⟨(c1_correct_submission_verifies.1 defaultConfig 5 7 ['1', '0']
      { emptyCache with captcha := some ⟨⟨.math 10, 0, 0⟩, 120⟩ }
      freshDb ⟨.math 10, 0, 0⟩ 120 rfl rfl
      (by with_unfolding_all decide) (by with_unfolding_all decide)
      (by with_unfolding_all decide) (by with_unfolding_all decide)
      (by with_unfolding_all decide)
      (Or.inl ⟨10, rfl, by with_unfolding_all decide⟩) rfl).2,
   (c1_correct_submission_verifies.2 defaultConfig 5 7 ['t', 'k']
      { emptyCache with buttonData := some ⟨⟨7, ['t', 'k'], 0⟩, 120⟩ }
      freshDb ⟨7, ['t', 'k'], 0⟩ 120 rfl
      (by with_unfolding_all decide) (by with_unfolding_all decide)
      rfl rfl rfl).2⟩

/-- Claim C3, counterexample: after two failure increments (times 0 and 1,
default configuration) the lock expires at 601 while the rolling failure
counter (TTL 3601) still holds 2 — so at time 601 the failure count is at
the lockout threshold within the rolling window, yet no live lock
timestamp is stored and `_is_user_locked` answers false, refuting the
claimed "if and only if" invariant. -/
theorem c3_lock_invariant_counterexample :
    get_failure_count c3TwoFailures 601 = 2 ∧
    defaultConfig.lockout_after_attempts = 2 ∧
    getE c3TwoFailures.locked 601 = none ∧
    (is_user_locked c3TwoFailures 601).1 = false := by
  with_unfolding_all decide

/-- Claim C3, amended: a lock is stored the moment an increment brings the
rolling count to `lockout_after_attempts` (and `_is_user_locked` is true
immediately), an increment below the threshold leaves the lock key
unchanged, and `_is_user_locked` is false as soon as `now ≥ locked_until`;
but the stored-lock/failure-count biconditional itself fails, because the
lock expires after `lockout_duration` while the counter window lasts
3600 s (see the counterexample). -/
theorem c3_lock_invariant_amended :
    (∀ (cfg : Config) (c : CacheState) (now : Time),
      cfg.lockout_after_attempts ≤ get_failure_count c now + 1 →
      0 < cfg.lockout_duration →
      (is_user_locked (increment_failure_count cfg c now) now).1 = true) ∧
    (∀ (cfg : Config) (c : CacheState) (now : Time),
      ¬ cfg.lockout_after_attempts ≤ get_failure_count c now + 1 →
      (increment_failure_count cfg c now).locked = c.locked) ∧
    (∀ (c : CacheState) (now lu exp : Time),
      c.locked = some ⟨lu, exp⟩ → lu ≤ now →
      (is_user_locked c now).1 = false) := by
  refine ⟨?_, ?_, ?_⟩
  · intro cfg c now hth hdur
    have hlt : now < now + cfg.lockout_duration := by linarith
    unfold is_user_locked
    rw [increment_locked_of_reach hth, getE_some_of_lt hlt]
    simp [hlt]
  · intro cfg c now hth
    exact increment_locked_of_below hth
  · intro c now lu exp hlock hle
    unfold is_user_locked
    rw [hlock]
    by_cases hb : now < exp
    · rw [getE_some_of_lt hb]
      simp [not_lt.mpr hle]
    · simp [getE, if_neg hb]

/-- Witness for `c3_lock_invariant_amended`: a first increment at time 0
with threshold 1 locks immediately; a sub-threshold increment (default
threshold 2) leaves the lock key unchanged; a lock value of 10 is inactive
at time 10. -/
theorem c3_lock_invariant_amended_witness :
    ((is_user_locked
        (increment_failure_count
          { defaultConfig with lockout_after_attempts := 1 } emptyCache 0)
        0).1 = true) ∧
    ((increment_failure_count defaultConfig emptyCache 0).locked =
      emptyCache.locked) ∧
    ((is_user_locked
        { emptyCache with locked := some ⟨10, 20⟩ } 10).1 = false) :=
  ⟨c3_lock_invariant_amended.1
      { defaultConfig with lockout_after_attempts := 1 } emptyCache 0
      (by with_unfolding_all decide) (by with_unfolding_all decide),
   c3_lock_invariant_amended.2.1 defaultConfig emptyCache 0
      (by with_unfolding_all decide),
   c3_lock_invariant_amended.2.2
      { emptyCache with locked := some ⟨10, 20⟩ } 10 10 20 rfl le_rfl⟩

/-- Claim C4, counterexample: in a reachable state (challenge issued at 0,
two too-fast submissions at 1 and 2 with `lockout_duration` tuned to 5 s,
locking the user until 7) a correct answer submitted at 6.5 — while
`_is_user_locked` still answers true — passes `verify_captcha` and clears
the lock, because the gate `int(lock_until - now) > 0` truncates the
remaining 0.5 s to 0.  So `verify_captcha` does not reject every locked
user. -/
theorem c4_locked_bypass_counterexample :
    (is_user_locked c4Fast2.cache (13 / 2)).1 = true ∧
    (verify_captcha c4Config (13 / 2) 42 ['5'] c4Fast2.cache
        c4Fast2.db).passed = true ∧
    (verify_captcha c4Config (13 / 2) 42 ['5'] c4Fast2.cache
        c4Fast2.db).msg = VMsg.success ∧
    (verify_captcha c4Config (13 / 2) 42 ['5'] c4Fast2.cache
        c4Fast2.db).cache.locked = none := by
  with_unfolding_all decide

/-- Claim C4, amended: `verify_button_captcha` never consults the lockout
state — a locked user submitting the correct stored token within the
timeout still succeeds and has the failure counter and lock cleared —
whereas `verify_captcha` rejects a locked user as its first check whenever
at least one whole second of lock remains (a locked user with under one
second remaining slips past the truncated-seconds gate, as the
counterexample shows). -/
theorem c4_button_ignores_lock :
    (∀ (cfg : Config) (now : Time) (uid : Int) (token : List Char)
        (c : CacheState) (db : Option Db) (bd : ButtonData)
        (exp lu expl : Time),
      c.locked = some ⟨lu, expl⟩ → now < expl → now < lu →
      c.buttonData = some ⟨bd, exp⟩ → now < exp →
      ¬ cfg.captcha_timeout < now - bd.created_at →
      bd.token = token → bd.user_id = uid →
      (verify_button_captcha cfg now uid token c db).passed = true ∧
      (verify_button_captcha cfg now uid token c db).cache.failures = none ∧
      (verify_button_captcha cfg now uid token c db).cache.locked = none) ∧
    (∀ (cfg : Config) (now : Time) (uid : Int) (ans : List Char)
        (c : CacheState) (db : Option Db) (lu exp : Time),
      c.locked = some ⟨lu, exp⟩ → now < exp → now < lu → 1 ≤ lu - now →
      (verify_captcha cfg now uid ans c db).passed = false ∧
      (verify_captcha cfg now uid ans c db).msg =
        VMsg.lockedTryAgain (max 0 (Rat.floor (lu - now)))) := by
  constructor
  · intro cfg now uid token c db bd exp lu expl hlock hlockl hlt hbd hlive
      hnt htok hid
    rw [verify_button_captcha_success hbd hlive hnt htok hid]
    exact ⟨rfl, rfl, rfl⟩
  · intro cfg now uid ans c db lu exp hlock hlive hlt hsec
    rw [verify_captcha_locked hlock hlive hlt hsec]
    exact ⟨rfl, rfl⟩

/-- Witness for `c4_button_ignores_lock`: a user locked until 100 (entry
live until 100) succeeds on the button path at time 5 and is rejected by
`verify_captcha` at time 5. -/
theorem c4_button_ignores_lock_witness :
    ((verify_button_captcha defaultConfig 5 7 ['t', 'k']
        { emptyCache with locked := some ⟨100, 100⟩,
                          buttonData := some ⟨⟨7, ['t', 'k'], 0⟩, 120⟩ }
        (some freshDb)).passed = true ∧
     (verify_button_captcha defaultConfig 5 7 ['t', 'k']
        { emptyCache with locked := some ⟨100, 100⟩,
                          buttonData := some ⟨⟨7, ['t', 'k'], 0⟩, 120⟩ }
        (some freshDb)).cache.failures = none ∧
     (verify_button_captcha defaultConfig 5 7 ['t', 'k']
        { emptyCache with locked := some ⟨100, 100⟩,
                          buttonData := some ⟨⟨7, ['t', 'k'], 0⟩, 120⟩ }
        (some freshDb)).cache.locked = none) ∧
    ((verify_captcha defaultConfig 5 7 ['5']
        { emptyCache with locked := some ⟨100, 100⟩ }
        (some freshDb)).passed = false ∧
     (verify_captcha defaultConfig 5 7 ['5']
        { emptyCache with locked := some ⟨100, 100⟩ }
        (some freshDb)).msg =
       VMsg.lockedTryAgain (max 0 (Rat.floor ((100 : ℚ) - 5)))) :=
  ⟨c4_button_ignores_lock.1 defaultConfig 5 7 ['t', 'k']
      { emptyCache with locked := some ⟨100, 100⟩,
                        buttonData := some ⟨⟨7, ['t', 'k'], 0⟩, 120⟩ }
      (some freshDb) ⟨7, ['t', 'k'], 0⟩ 120 100 100 rfl
      (by with_unfolding_all decide) (by with_unfolding_all decide) rfl
      (by with_unfolding_all decide) (by with_unfolding_all decide) rfl rfl,
   c4_button_ignores_lock.2 defaultConfig 5 7 ['5']
      { emptyCache with locked := some ⟨100, 100⟩ }
      (some freshDb) 100 100 rfl
      (by with_unfolding_all decide) (by with_unfolding_all decide)
      (by with_unfolding_all decide)⟩

set_option maxRecDepth 4000 in
/-- Claim C6, counterexample: in a reachable state (challenge at 0, two
too-fast failures at 1 and 2 — both logged — lock expired at 602, fresh
challenge issued at 602, rolling counter still 2) the wrong answer `7` at
time 606 is a timely, well-formed, unlocked wrong-answer submission, yet
it exhausts the budget (counter rises to 3) and returns through the
exhaustion branch WITHOUT writing a failure history record: the durable
store is exactly as before the submission. -/
theorem c6_missing_failure_record_counterexample :
    (is_user_locked c6Reissued 606).1 = false ∧
    getE c6Reissued.captcha 606 =
      some ⟨CaptchaPayload.math 8, 602, 0⟩ ∧
    pyInt (pyStrip ['7']) = some 7 ∧ (7 : Int) ≠ 8 ∧
    c6Final.passed = false ∧
    c6Final.msg = VMsg.tooManyAttempts ∧
    c6Final.db = c6Fast2.db ∧
    (c6Fast2.db.getD freshDb).history.length = 2 := by
  with_unfolding_all decide

/-- Claim C6, amended: a wrong-answer submission to a stored math or image
challenge (timely, not locked) increments the rolling failure counter
exactly once and deletes the stored challenge whether or not attempts
remain; when the remaining-attempts count is positive it reports that
count and writes exactly one failure history record, and when the budget
is exhausted it reports exhaustion and writes no history record. -/
theorem c6_wrong_answer_amended (cfg : Config) (now : Time) (uid : Int)
    (ans : List Char) (c : CacheState) (db : Db) (cd : CaptchaData)
    (exp : Time)
    (hl : getE c.locked now = none)
    (hcap : c.captcha = some ⟨cd, exp⟩) (hlive : now < exp)
    (hnt : ¬ cfg.captcha_timeout < now - cd.created_at)
    (hnf : ¬ now - cd.created_at < cfg.min_answer_time)
    (hns : ¬ cfg.max_answer_time < now - cd.created_at)
    (hna : ¬ cfg.max_attempts ≤ cd.attempts)
    (hwrong : (∃ a ua, cd.payload = .math a ∧
                 pyInt (pyStrip ans) = some ua ∧ ua ≠ a) ∨
              (∃ code, cd.payload = .image code ∧ pyStrip ans ≠ code)) :
    (verify_captcha cfg now uid ans c (some db)).passed = false ∧
    get_failure_count (verify_captcha cfg now uid ans c (some db)).cache now =
      get_failure_count c now + 1 ∧
    (verify_captcha cfg now uid ans c (some db)).cache.captcha = none ∧
    (cfg.max_attempts - (get_failure_count c now + 1) = 0 →
      (verify_captcha cfg now uid ans c (some db)).msg =
        VMsg.tooManyAttempts ∧
      (verify_captcha cfg now uid ans c (some db)).db = some db) ∧
    (cfg.max_attempts - (get_failure_count c now + 1) ≠ 0 →
      (verify_captcha cfg now uid ans c (some db)).msg =
        VMsg.incorrectRemaining
          (cfg.max_attempts - (get_failure_count c now + 1)) ∧
      (verify_captcha cfg now uid ans c (some db)).db =
        some (log_verification uid now false db)) := by
  rw [verify_captcha_mismatch hl hcap hlive hnt hnf hns hna hwrong]
  have hfc : ∀ x : CacheState,
      get_failure_count (delCaptcha x) now = get_failure_count x now :=
    fun _ => rfl
  refine ⟨?_, ?_, ?_, ?_, ?_⟩
  · by_cases h0 : cfg.max_attempts - (get_failure_count c now + 1) = 0
    · rw [if_pos h0]
    · rw [if_neg h0]
  · by_cases h0 : cfg.max_attempts - (get_failure_count c now + 1) = 0
    · rw [if_pos h0]
      show get_failure_count (delCaptcha (increment_failure_count cfg c now))
          now = _
      rw [hfc, get_failure_count_increment]
    · rw [if_neg h0]
      show get_failure_count (delCaptcha (increment_failure_count cfg c now))
          now = _
      rw [hfc, get_failure_count_increment]
  · by_cases h0 : cfg.max_attempts - (get_failure_count c now + 1) = 0
    · rw [if_pos h0]
      rfl
    · rw [if_neg h0]
      rfl
  · intro h0
    rw [if_pos h0]
    exact ⟨rfl, rfl⟩
  · intro h0
    rw [if_neg h0]
    exact ⟨rfl, rfl⟩

/-- Witness for `c6_wrong_answer_amended`: a fresh user (failure count 0)
answers 9 instead of 10 at time 5; two attempts remain and one failure
record is written. -/
theorem c6_wrong_answer_amended_witness :
    3 - (get_failure_count
          { emptyCache with captcha := some ⟨⟨.math 10, 0, 0⟩, 120⟩ } 5 + 1)
      ≠ 0 ∧
    (verify_captcha defaultConfig 5 7 ['9']
        { emptyCache with captcha := some ⟨⟨.math 10, 0, 0⟩, 120⟩ }
        (some freshDb)).msg = VMsg.incorrectRemaining
          (3 - (get_failure_count
            { emptyCache with captcha := some ⟨⟨.math 10, 0, 0⟩, 120⟩ } 5
            + 1)) ∧
    (verify_captcha defaultConfig 5 7 ['9']
        { emptyCache with captcha := some ⟨⟨.math 10, 0, 0⟩, 120⟩ }
        (some freshDb)).db = some (log_verification 7 5 false freshDb) :=
  ⟨by with_unfolding_all decide,
   ((c6_wrong_answer_amended defaultConfig 5 7 ['9']
      { emptyCache with captcha := some ⟨⟨.math 10, 0, 0⟩, 120⟩ }
      freshDb ⟨.math 10, 0, 0⟩ 120 rfl rfl
      (by with_unfolding_all decide) (by with_unfolding_all decide)
      (by with_unfolding_all decide) (by with_unfolding_all decide)
      (by with_unfolding_all decide)
      (Or.inl ⟨10, 9, rfl, by with_unfolding_all decide,
        by with_unfolding_all decide⟩)).2.2.2.2
    (by with_unfolding_all decide)).1,
   ((c6_wrong_answer_amended defaultConfig 5 7 ['9']
      { emptyCache with captcha := some ⟨⟨.math 10, 0, 0⟩, 120⟩ }
      freshDb ⟨.math 10, 0, 0⟩ 120 rfl rfl
      (by with_unfolding_all decide) (by with_unfolding_all decide)
      (by with_unfolding_all decide) (by with_unfolding_all decide)
      (by with_unfolding_all decide)
      (Or.inl ⟨10, 9, rfl, by with_unfolding_all decide,
        by with_unfolding_all decide⟩)).2.2.2.2
    (by with_unfolding_all decide)).2⟩

/-- The returned pair of `verify_captcha` does not depend on the durable
store handed in: the history write happens after the outcome is fixed and
its failure is swallowed. -/
lemma verify_captcha_result_db_irrel (cfg : Config) (now : Time) (uid : Int)
    (ans : List Char) (c : CacheState) (db db' : Option Db) :
    (verify_captcha cfg now uid ans c db).passed =
      (verify_captcha cfg now uid ans c db').passed ∧
    (verify_captcha cfg now uid ans c db).msg =
      (verify_captcha cfg now uid ans c db').msg := by
  unfold verify_captcha
  rcases hq : is_user_locked c now with ⟨lk, c1⟩
  simp only []
  by_cases h1 : lk = true ∧ 0 < get_lock_remaining_time c1 now
  · simp only [if_pos h1]
    exact ⟨by trivial, by trivial⟩
  · simp only [if_neg h1]
    rcases h2 : getE c1.captcha now with - | cd
    · simp only [h2]
      exact ⟨by trivial, by trivial⟩
    · simp only [h2]
      by_cases h3 : cfg.captcha_timeout < now - cd.created_at
      · simp only [if_pos h3]
        exact ⟨by trivial, by trivial⟩
      · simp only [if_neg h3]
        by_cases h4 : now - cd.created_at < cfg.min_answer_time
        · simp only [if_pos h4]
          exact ⟨by trivial, by trivial⟩
        · simp only [if_neg h4]
          by_cases h5 : cfg.max_answer_time < now - cd.created_at
          · simp only [if_pos h5]
            exact ⟨by trivial, by trivial⟩
          · simp only [if_neg h5]
            by_cases h6 : cfg.max_attempts ≤ cd.attempts
            · simp only [if_pos h6]
              exact ⟨by trivial, by trivial⟩
            · simp only [if_neg h6]
              rcases h7 : cd.payload with a | code
              · simp only [h7]
                rcases h8 : pyInt (pyStrip ans) with - | ua
                · simp only [h8]
                  by_cases h9 : cfg.max_attempts -
                      (get_failure_count c1 now + 1) = 0
                  · simp only [get_remaining_attempts_increment, if_pos h9]
                    exact ⟨by trivial, by trivial⟩
                  · simp only [get_remaining_attempts_increment, if_neg h9]
                    exact ⟨by trivial, by trivial⟩
                · simp only [h8]
                  by_cases h10 : ua = a
                  · simp only [if_pos h10]
                    exact ⟨by trivial, by trivial⟩
                  · simp only [if_neg h10]
                    by_cases h9 : cfg.max_attempts -
                        (get_failure_count c1 now + 1) = 0
                    · simp only [get_remaining_attempts_increment, if_pos h9]
                      exact ⟨by trivial, by trivial⟩
                    · simp only [get_remaining_attempts_increment, if_neg h9]
                      exact ⟨by trivial, by trivial⟩
              · simp only [h7]
                by_cases h10 : pyStrip ans = code
                · simp only [if_pos h10]
                  exact ⟨by trivial, by trivial⟩
                · simp only [if_neg h10]
                  by_cases h9 : cfg.max_attempts -
                      (get_failure_count c1 now + 1) = 0
                  · simp only [get_remaining_attempts_increment, if_pos h9]
                    exact ⟨by trivial, by trivial⟩
                  · simp only [get_remaining_attempts_increment, if_neg h9]
                    exact ⟨by trivial, by trivial⟩

/-- The returned pair of `verify_button_captcha` does not depend on the
durable store handed in. -/
lemma verify_button_result_db_irrel (cfg : Config) (now : Time) (uid : Int)
    (token : List Char) (c : CacheState) (db db' : Option Db) :
    (verify_button_captcha cfg now uid token c db).passed =
      (verify_button_captcha cfg now uid token c db').passed ∧
    (verify_button_captcha cfg now uid token c db).msg =
      (verify_button_captcha cfg now uid token c db').msg := by
  unfold verify_button_captcha
  rcases h1 : getE c.buttonData now with - | bd
  · simp only [h1]
    exact ⟨by trivial, by trivial⟩
  · simp only [h1]
    by_cases h2 : cfg.captcha_timeout < now - bd.created_at
    · simp only [if_pos h2]
      exact ⟨by trivial, by trivial⟩
    · simp only [if_neg h2]
      by_cases h3 : bd.token ≠ token ∨ bd.user_id ≠ uid
      · simp only [if_pos h3]
        exact ⟨by trivial, by trivial⟩
      · simp only [if_neg h3]
        exact ⟨by trivial, by trivial⟩

/-- Claim C10: the history append never propagates an error — a failed
insert (`historyOk = false`, e.g. a missing `captcha_history` table)
leaves the durable store unchanged and `_log_verification` returns
normally, and the verification outcome (pass flag and message) returned by
`verify_captcha` and by `verify_button_captcha` is identical whether the
history write succeeds or fails. -/
theorem c10_history_errors_isolated :
    (∀ (uid : Int) (now : Time) (s : Bool) (hist : List HistoryRec)
        (v : List Int),
      log_verification uid now s ⟨false, hist, v⟩ = ⟨false, hist, v⟩) ∧
    (∀ (cfg : Config) (now : Time) (uid : Int) (ans : List Char)
        (c : CacheState) (hist : List HistoryRec) (v : List Int),
      (verify_captcha cfg now uid ans c (some ⟨true, hist, v⟩)).passed =
        (verify_captcha cfg now uid ans c (some ⟨false, hist, v⟩)).passed ∧
      (verify_captcha cfg now uid ans c (some ⟨true, hist, v⟩)).msg =
        (verify_captcha cfg now uid ans c (some ⟨false, hist, v⟩)).msg) ∧
    (∀ (cfg : Config) (now : Time) (uid : Int) (token : List Char)
        (c : CacheState) (hist : List HistoryRec) (v : List Int),
      (verify_button_captcha cfg now uid token c
          (some ⟨true, hist, v⟩)).passed =
        (verify_button_captcha cfg now uid token c
          (some ⟨false, hist, v⟩)).passed ∧
      (verify_button_captcha cfg now uid token c
          (some ⟨true, hist, v⟩)).msg =
        (verify_button_captcha cfg now uid token c
          (some ⟨false, hist, v⟩)).msg) :=
  ⟨fun _ _ _ _ _ => rfl,
   fun cfg now uid ans c hist v =>
     verify_captcha_result_db_irrel cfg now uid ans c
       (some ⟨true, hist, v⟩) (some ⟨false, hist, v⟩),
   fun cfg now uid token c hist v =>
     verify_button_result_db_irrel cfg now uid token c
       (some ⟨true, hist, v⟩) (some ⟨false, hist, v⟩)⟩

end BetterForward
